import Mathlib

/-!
Verification of the page-object interaction layer of an end-to-end UI test
suite (Playwright-based, Python).  The interaction primitives of
`pages/base_page.py`, the dropdown-selection algorithm `ant_select_option`,
the page-object flows (`login_page.py`, `self_service_page.py`,
`add_bank_details_page.py`) and the `authenticated_page` fixture of
`conftest.py` are shallowly embedded as pure functions from an explicit
driver environment to a pair of an event trace and an `Except` result.

Every driver call that can raise is given a slot in an environment
structure holding `Option PyErr` (`none` = the call returned normally,
`some e` = the call raised `e`).  An event is appended to the trace when
the corresponding driver call is attempted.
-/

namespace CILeasing

/-- Exceptions of the embedded Python code.  The repository defines no
exception classes of its own: the embedded code only ever produces
`timeoutError` (driver waits), `assertionError` (Python `assert` and the
driver `expect` assertions) and `otherError`.  The constructors
`dropdownOpenError`, `dropdownSelectError` and `downloadError` exist only
so that the error taxonomy of the specification can be stated and compared
against what the code actually raises. -/
inductive PyErr where
  | timeoutError (msg : String)
  | assertionError (msg : String)
  | otherError (msg : String)
  | dropdownOpenError
  | dropdownSelectError (optionText : String) (locator : String)
  | downloadError (filename : String)
  deriving DecidableEq, Repr

/-- Decidable equality of results, used to evaluate the embedded functions
at concrete inputs. -/
instance {ε α : Type} [DecidableEq ε] [DecidableEq α] : DecidableEq (Except ε α) :=
  fun a b => by
    cases a with
    | ok u =>
        cases b with
        | ok v =>
            exact match decEq u v with
            | isTrue h => isTrue (h ▸ rfl)
            | isFalse h => isFalse (fun hc => h (by injection hc))
        | error e => exact isFalse (fun hc => Except.noConfusion hc)
    | error e1 =>
        cases b with
        | ok v => exact isFalse (fun hc => Except.noConfusion hc)
        | error e2 =>
            exact match decEq e1 e2 with
            | isTrue h => isTrue (h ▸ rfl)
            | isFalse h => isFalse (fun hc => h (by injection hc))

/-- Observable driver-level events, in the order the embedded code attempts
them.  An event records the attempt of the corresponding driver call. -/
inductive Ev where
  | logElementState (selector : String)
  | waitAttached (selector : String)
  | waitVisible (selector : String)
  | scrollIntoView (selector : String)
  | waitEnabled (selector : String)
  | clickAction (selector : String)
  | fillAction (selector : String) (value : String)
  | expectValue (selector : String) (value : String)
  | expectValueLen (selector : String) (n : Nat)
  | expectVisible (selector : String)
  | screenshot (name : String)
  | waitSpinnerHidden
  | spinnerErrorSwallowed
  | clickTrigger (locator : String)
  | waitPanelVisible
  | waitRoleOptionVisible (text : String)
  | clickRoleOption (text : String)
  | waitPanelHidden
  | waitFallbackOptionVisible (text : String)
  | clickFallbackOption (text : String)
  | navigateGoto (url : String)
  | waitTimeout (ms : Nat)
  | saveAs (path : String)
  | checkPathExists
  | checkExtension (filename : String)
  | waitForLoadState (state : String)
  | yieldScope
  | logAuthError
  deriving DecidableEq, Repr

/-- Run a list of steps, each an event paired with the outcome of its
driver call; the run stops at the first step whose call raises, keeping
the event of that step in the trace and propagating its error. -/
def runSteps : List (Ev × Option PyErr) → List Ev × Except PyErr Unit
  | [] => ([], Except.ok ())
  | (ev, none) :: rest =>
      let r := runSteps rest
      (ev :: r.1, r.2)
  | (ev, some e) :: _ => ([ev], Except.error e)

/-- The `try ... except: screenshot; raise` pattern of `BasePage`:
on failure append the diagnostic screenshot event and re-raise. -/
def withScreenshotOnFailure (name : String) (x : List Ev × Except PyErr Unit) :
    List Ev × Except PyErr Unit :=
  match x with
  | (t, Except.ok u) => (t, Except.ok u)
  | (t, Except.error e) => (t ++ [Ev.screenshot name], Except.error e)

/-- Sequential composition of two embedded statements: the second runs only
when the first returned normally; traces accumulate. -/
def andThen (a b : List Ev × Except PyErr Unit) : List Ev × Except PyErr Unit :=
  match a with
  | (t, Except.error e) => (t, Except.error e)
  | (t, Except.ok _) => (t ++ b.1, b.2)

/-- Python string truthiness as used in `x = x or default`:
`None` and the empty string fall back to the default. -/
def pyOr (v : Option String) (d : String) : String :=
  match v with
  | none => d
  | some s => if s = "" then d else s

/-! ### Settings (`config/settings.py`, class-level defaults) -/

/-- The `Settings` defaults of `config/settings.py` (no `.env` file is part
of the repository snapshot, so the class-level defaults apply). -/
structure Settings where
  base_url : String := "https://candileasing.netlify.app/"
  self_service_url : String := "https://candileasing.netlify.app/personal/self-service"
  add_bank_details_url : String :=
    "https://candileasing.netlify.app/personal/self-service/bank-details/add"
  test_username : String := ""
  test_password : String := ""
  bank_name : String := "GLOBUS BANK"
  bank_id : String := "UNAFNGLA228"
  sort_code : String := "033"
  timeout : Nat := 30000
  deriving Repr

/-- The cached settings singleton (`get_settings()` / `settings`). -/
def settings : Settings := {}

/-! ### Selector constants (`utils/constants.py`)

The selectors referenced by `add_bank_details_page.py` and the bank /
profile entries referenced by `self_service_page.py` are absent from the
`utils/constants.py` of the snapshot (the module is imported but lacks the
fields); they are opaque locator strings whose exact value no claim
depends on, so they are given their dotted names as values. -/

def LOGIN_PAGE_EMAIL_INPUT : String := "input[name=\"email\"]"

def LOGIN_PAGE_PASSWORD_INPUT : String := "input[name=\"password\"]"

def LOGIN_PAGE_SUBMIT_BUTTON : String := "button[type=\"submit\"][buttontype=\"primary\"]"

def LOGIN_PAGE_DEFAULT_COMPANY : String := "div.uppercase:has-text(\x27DEFAULT\x27)"

def LOGIN_PAGE_FLOUR_MILLS_COMPANY : String :=
  "div.space-y-4 div.uppercase:text-is(\"FLOUR MILLS NIGERIA LIMITED GOLDEN NOODLES & PASTA IGANMU\")"

def LOGIN_PAGE_DEFAULT_LINK : String := "text=\"DEFAULT\""

def SELF_SERVICE_PERSONAL_NAME : String := "span.text-dark0b.font-\\[400\\].text-\\[14px\\]"

def SELF_SERVICE_MM_PROFILE : String := "span.ant-avatar-string:has-text(\x27MM\x27)"

def SELF_SERVICE_LOGOUT_LINK : String := "p.text-danger:has-text(\x27Logout\x27)"

def SELF_SERVICE_CLICK_BANK_DETAIL : String := "SELF_SERVICE_PAGE.CLICK_BANK_DETAIL"

def SELF_SERVICE_ADD_NEW_BANK_DETAIL_BUTTON : String :=
  "SELF_SERVICE_PAGE.ADD_NEW_BANK_DETAIL_BUTTON"

def ADD_BANK_BANK_NAME_DROPDOWN : String := "ADD_BANK_DETAILS_PAGE.BANK_NAME_DROPDOWN"

def ADD_BANK_BANK_NAME : String := "ADD_BANK_DETAILS_PAGE.BANK_NAME"

def ADD_BANK_BANK_ID : String := "ADD_BANK_DETAILS_PAGE.BANK_ID"

def ADD_BANK_SORT_CODE : String := "ADD_BANK_DETAILS_PAGE.SORT_CODE"

def ADD_BANK_ADD_BANK_BUTTON : String := "ADD_BANK_DETAILS_PAGE.ADD_BANK_BUTTON"

/-! ### BasePage.click_element -/

/-- Driver outcomes for the five waits/actions of
`BasePage.click_element` (`pages/base_page.py:62`). -/
structure ClickEnv where
  attachedWait : Option PyErr := none
  visibleWait : Option PyErr := none
  scrollIntoView : Option PyErr := none
  enabledExpect : Option PyErr := none
  click : Option PyErr := none
  deriving Repr

/-- First error in the wait chain of `click_element`, in source order. -/
def clickFirstErr (env : ClickEnv) : Option PyErr :=
  match env.attachedWait with
  | some e => some e
  | none =>
    match env.visibleWait with
    | some e => some e
    | none =>
      match env.scrollIntoView with
      | some e => some e
      | none =>
        match env.enabledExpect with
        | some e => some e
        | none => env.click

/-- `BasePage.click_element`: log element state, wait attached, wait
visible, scroll into view, expect enabled, click; on any failure take a
screenshot and re-raise (`pages/base_page.py:62`). -/
def click_element (env : ClickEnv) (selector : String) : List Ev × Except PyErr Unit :=
  withScreenshotOnFailure "click_error" <| runSteps
    [ (Ev.logElementState selector, none),
      (Ev.waitAttached selector, env.attachedWait),
      (Ev.waitVisible selector, env.visibleWait),
      (Ev.scrollIntoView selector, env.scrollIntoView),
      (Ev.waitEnabled selector, env.enabledExpect),
      (Ev.clickAction selector, env.click) ]

/-! ### BasePage.fill_input -/

/-- Driver outcomes for `BasePage.fill_input` (`pages/base_page.py:100`).
`fieldValueAfterFill` is the value the field actually holds after
`page.fill` (the value a subsequent `to_have_value` poll observes). -/
structure FillEnv where
  visibleWait : Option PyErr := none
  scrollIntoView : Option PyErr := none
  fillAction : Option PyErr := none
  fieldValueAfterFill : String := ""
  deriving Repr

/-- Outcome of `expect(locator).to_have_value(value)`: succeeds iff the
observed field value equals the expected string. -/
def toHaveValueResult (actual expected : String) : Option PyErr :=
  if actual = expected then none
  else some (PyErr.assertionError
    ("Locator expected to have value " ++ expected ++ " but had " ++ actual))

/-- `BasePage.fill_input`: log state, wait visible, scroll into view, fill,
then assert the field holds exactly the supplied value; on any failure take
a screenshot and re-raise (`pages/base_page.py:100`). -/
def fill_input (env : FillEnv) (selector value : String) : List Ev × Except PyErr Unit :=
  withScreenshotOnFailure "fill_error" <| runSteps
    [ (Ev.logElementState selector, none),
      (Ev.waitVisible selector, env.visibleWait),
      (Ev.scrollIntoView selector, env.scrollIntoView),
      (Ev.fillAction selector value, env.fillAction),
      (Ev.expectValue selector value, toHaveValueResult env.fieldValueAfterFill value) ]

/-- First error in the chain of `fill_input`, in source order. -/
def fillFirstErr (env : FillEnv) (value : String) : Option PyErr :=
  match env.visibleWait with
  | some e => some e
  | none =>
    match env.scrollIntoView with
    | some e => some e
    | none =>
      match env.fillAction with
      | some e => some e
      | none => toHaveValueResult env.fieldValueAfterFill value

/-! ### BasePage assertion / verification primitives -/

/-- `BasePage.verify_element_visible` (`pages/base_page.py:294`):
`expect(...).to_be_visible()`; on failure take a screenshot named
`verify_visible_error` and re-raise. -/
def verify_element_visible (r : Option PyErr) (selector : String) :
    List Ev × Except PyErr Unit :=
  withScreenshotOnFailure "verify_visible_error" <| runSteps
    [ (Ev.expectVisible selector, r) ]

/-- `BasePage.verify_element_has_value` (`pages/base_page.py:354`):
`expect(...).to_have_value(expected)`; succeeds iff the current field value
equals the expected string; no screenshot wrapper. -/
def verify_element_has_value (fieldValue : String) (selector expected : String) :
    List Ev × Except PyErr Unit :=
  runSteps [ (Ev.expectValue selector expected, toHaveValueResult fieldValue expected) ]

/-- Semantics of the Python check
`re.search("^." ++ toString n ++ "repetitions$", s)` performed by
`to_have_value(re.compile(f"^.\x7b n \x7d$"))`: with default flags `.` does
not match a newline, `^` anchors at the start of the string and `$` matches
at the end of the string or just before a single trailing newline, so the
pattern matches iff `s` is `n` non-newline characters, optionally followed
by one final newline. -/
def reExactLenMatches (s : String) (n : Nat) : Bool :=
  (s.data.length == n && s.data.all (fun c => c != Char.ofNat 10)) ||
  (s.data.length == n + 1 && s.data.dropLast.all (fun c => c != Char.ofNat 10) &&
    s.data.getLast? == some (Char.ofNat 10))

/-- `BasePage.verify_input_value_length` (`pages/base_page.py:405`):
`expect(element).to_be_visible()` then
`expect(element).to_have_value(re.compile(f"^.\x7b expected_length \x7d$"))`. -/
def verify_input_value_length (visible : Option PyErr) (fieldValue : String)
    (selector : String) (expected_length : Nat) : List Ev × Except PyErr Unit :=
  runSteps
    [ (Ev.expectVisible selector, visible),
      (Ev.expectValueLen selector expected_length,
        if reExactLenMatches fieldValue expected_length then none
        else some (PyErr.assertionError
          ("Locator expected to have value matching length " ++
            toString expected_length ++ " but had " ++ fieldValue))) ]

/-- `BasePage.navigate_to` (`pages/base_page.py:34`): `page.goto`; on
failure take a screenshot named `navigation_error` and re-raise. -/
def navigate_to (r : Option PyErr) (url : String) : List Ev × Except PyErr Unit :=
  withScreenshotOnFailure "navigation_error" <| runSteps
    [ (Ev.navigateGoto url, r) ]

/-! ### Resilient dropdown selector (`BasePage.ant_select_option`) -/

/-- Driver outcomes for the individual waits and clicks inside
`BasePage.ant_select_option` (`pages/base_page.py:167`).
`spinnerPresent` is whether a `.ant-select-loading` indicator exists when
the routine starts; waiting for `state="hidden"` on an absent element
returns immediately with success, so `spinnerHiddenWait` is consulted only
when the indicator is present. -/
structure AntSelectEnv where
  spinnerPresent : Bool := false
  spinnerHiddenWait : Option PyErr := none
  triggerClick : Option PyErr := none
  panelVisibleWait : Option PyErr := none
  roleOptionVisibleWait : Option PyErr := none
  roleOptionClick : Option PyErr := none
  panelHiddenAfterPrimary : Option PyErr := none
  fallbackOptionVisibleWait : Option PyErr := none
  fallbackOptionClick : Option PyErr := none
  panelHiddenAfterFallback : Option PyErr := none
  deriving Repr

/-- Outcome of the loading-indicator pre-check wait: immediate success when
the indicator is absent. -/
def spinnerWaitResult (env : AntSelectEnv) : Option PyErr :=
  if env.spinnerPresent then env.spinnerHiddenWait else none

/-- Whether any step of the primary (accessible-role) strategy of
`ant_select_option` raises: the role-option visibility wait, the click on
the role option, or the wait for the panel to hide afterwards. -/
def antPrimaryFails (env : AntSelectEnv) : Prop :=
  env.roleOptionVisibleWait ≠ none ∨ env.roleOptionClick ≠ none ∨
    env.panelHiddenAfterPrimary ≠ none

instance (env : AntSelectEnv) : Decidable (antPrimaryFails env) := by
  unfold antPrimaryFails; infer_instance

/-- First error of the fallback (title-attribute) strategy, in source
order. -/
def antFallbackFirstErr (env : AntSelectEnv) : Option PyErr :=
  match env.fallbackOptionVisibleWait with
  | some e => some e
  | none =>
    match env.fallbackOptionClick with
    | some e => some e
    | none => env.panelHiddenAfterFallback

/-- The fallback branch of `ant_select_option`
(`pages/base_page.py:208`): locate the option inside the open panel by its
`title` attribute, wait for it to be visible, click it, wait for the panel
to hide; any failure propagates uncaught. -/
def antFallback (env : AntSelectEnv) (option_text : String) :
    List Ev × Except PyErr Unit :=
  runSteps
    [ (Ev.waitFallbackOptionVisible option_text, env.fallbackOptionVisibleWait),
      (Ev.clickFallbackOption option_text, env.fallbackOptionClick),
      (Ev.waitPanelHidden, env.panelHiddenAfterFallback) ]

/-- The primary branch of `ant_select_option` as a step list (the body of
the `try` at `pages/base_page.py:195`). -/
def antPrimary (env : AntSelectEnv) (option_text : String) :
    List Ev × Except PyErr Unit :=
  runSteps
    [ (Ev.waitRoleOptionVisible option_text, env.roleOptionVisibleWait),
      (Ev.clickRoleOption option_text, env.roleOptionClick),
      (Ev.waitPanelHidden, env.panelHiddenAfterPrimary) ]

/-- `BasePage.ant_select_option` (`pages/base_page.py:167`):
wait for the loading indicator to disappear, swallowing any error of that
wait (bare `except`); click the dropdown trigger; wait for a visible,
non-hidden panel; try the primary accessible-role strategy, and on any
exception from it run the title-attribute fallback, whose errors propagate
uncaught. -/
def ant_select_option (env : AntSelectEnv) (dropdown_locator option_text : String) :
    List Ev × Except PyErr Unit :=
  let pre : List Ev :=
    match spinnerWaitResult env with
    | none => [Ev.waitSpinnerHidden]
    | some _ => [Ev.waitSpinnerHidden, Ev.spinnerErrorSwallowed]
  match env.triggerClick with
  | some e => (pre ++ [Ev.clickTrigger dropdown_locator], Except.error e)
  | none =>
    match env.panelVisibleWait with
    | some e =>
        (pre ++ [Ev.clickTrigger dropdown_locator, Ev.waitPanelVisible], Except.error e)
    | none =>
      let opened := pre ++ [Ev.clickTrigger dropdown_locator, Ev.waitPanelVisible]
      match antPrimary env option_text with
      | (t, Except.ok u) => (opened ++ t, Except.ok u)
      | (t, Except.error _) =>
          let fb := antFallback env option_text
          (opened ++ t ++ fb.1, fb.2)

/-! ### BasePage.click_and_verify_download -/

/-- Driver outcomes for `BasePage.click_and_verify_download`
(`pages/base_page.py:468`).  `tempPath` is `download.path()` (the driver
temporary file, `None` when unavailable), `tempPathExists` the result of
`os.path.exists` on it, and `suggestedFilename` the download field
`suggested_filename`. -/
structure DownloadEnv where
  click : ClickEnv := {}
  tempPath : Option String := some "/tmp/dl"
  tempPathExists : Bool := true
  suggestedFilename : String := ""
  deriving Repr

/-- Rendering of `download.path()` inside the assertion message
(`None` prints as the Python literal). -/
def pathStr : Option String → String
  | none => "None"
  | some p => p

/-- Python truthiness-and-existence check
`actual_path and os.path.exists(actual_path)`. -/
def downloadPathOk (env : DownloadEnv) : Bool :=
  match env.tempPath with
  | none => false
  | some p => decide (p ≠ "") && env.tempPathExists

/-- Python `filename.endswith(tuple_of_extensions)`: true iff some listed
extension is a character-wise suffix of the filename. -/
def endsWithAny (filename : String) (exts : List String) : Bool :=
  exts.any (fun e => e.data.isSuffixOf filename.data)

/-- `BasePage.click_and_verify_download` (`pages/base_page.py:468`):
click the element inside an `expect_download` scope, persist the download
to `save_path` via `download.save_as`, then `assert` that
`download.path()` is truthy and exists on disk, then `assert` that the
suggested filename ends with one of the expected extensions.  The
assertions raise `AssertionError` with the f-string messages of the source. -/
def click_and_verify_download (env : DownloadEnv) (selector save_path : String)
    (expected_extensions : List String) : List Ev × Except PyErr Unit :=
  andThen (click_element env.click selector) <|
  andThen ([Ev.saveAs save_path], Except.ok ()) <|
  andThen (runSteps
    [ (Ev.checkPathExists,
        if downloadPathOk env then none
        else some (PyErr.assertionError
          ("Downloaded file not found at " ++ pathStr env.tempPath))) ]) <|
  runSteps
    [ (Ev.checkExtension env.suggestedFilename,
        if endsWithAny env.suggestedFilename expected_extensions then none
        else some (PyErr.assertionError
          ("Unexpected file type: " ++ env.suggestedFilename))) ]

/-! ### LoginPage (`pages/login_page.py`) -/

/-- Driver outcomes for `LoginPage.login_user`. -/
structure LoginEnv where
  emailFill : FillEnv := {}
  passwordFill : FillEnv := {}
  submit : ClickEnv := {}
  deriving Repr

/-- `LoginPage.login_user` (`pages/login_page.py:24`): replace a `None` or
empty email/password by the settings default (`x = x or settings...`),
fill both fields, click the submit button, wait 5000 ms. -/
def login_user (env : LoginEnv) (email password : Option String) :
    List Ev × Except PyErr Unit :=
  andThen (fill_input env.emailFill LOGIN_PAGE_EMAIL_INPUT
      (pyOr email settings.test_username)) <|
  andThen (fill_input env.passwordFill LOGIN_PAGE_PASSWORD_INPUT
      (pyOr password settings.test_password)) <|
  andThen (click_element env.submit LOGIN_PAGE_SUBMIT_BUTTON) <|
  ([Ev.waitTimeout 5000], Except.ok ())

/-! ### Page objects as values (`pages/*.py`) -/

/-- The logical page a Page Object class wraps. -/
inductive PageKind where
  | home
  | login
  | selfService
  | addBankDetails
  deriving DecidableEq, Repr

/-- Value-level view of a Page Object: the identity of the wrapped driver
page (`self.page`), the `url` attribute set by `__init__` and the class. -/
structure PageObject where
  pageId : Nat
  url : Option String
  kind : PageKind
  deriving DecidableEq, Repr

/-- `HomePage.__init__` (`pages/home_page.py:19`). -/
def mkHomePage (pid : Nat) : PageObject :=
  { pageId := pid, url := some settings.base_url, kind := PageKind.home }

/-- `LoginPage.__init__` (`pages/login_page.py:16`). -/
def mkLoginPage (pid : Nat) : PageObject :=
  { pageId := pid, url := some settings.base_url, kind := PageKind.login }

/-- `SelfServicePage.__init__` (`pages/self_service_page.py:26`). -/
def mkSelfServicePage (pid : Nat) : PageObject :=
  { pageId := pid, url := some settings.self_service_url, kind := PageKind.selfService }

/-- `AddBankDetailsPage.__init__` (`pages/add_bank_details_page.py:15`). -/
def mkAddBankDetailsPage (pid : Nat) : PageObject :=
  { pageId := pid, url := some settings.add_bank_details_url,
    kind := PageKind.addBankDetails }

/-- `LoginPage.click_default_company_link` (`pages/login_page.py:82`):
click the default company link, then return `SelfServicePage(self.page)`.
The method assigns no attribute of `self`, so the receiver passes through
unchanged (first component of the result). -/
def click_default_company_link (self : PageObject) (env : ClickEnv) :
    PageObject × (List Ev × Except PyErr PageObject) :=
  match click_element env LOGIN_PAGE_DEFAULT_LINK with
  | (t, Except.error e) => (self, (t, Except.error e))
  | (t, Except.ok _) => (self, (t, Except.ok (mkSelfServicePage self.pageId)))

/-- `SelfServicePage.click_to_logout` (`pages/self_service_page.py:37`):
click the profile avatar, click the logout link, return
`HomePage(self.page)`; no attribute of `self` is assigned. -/
def click_to_logout (self : PageObject) (envProfile envLogout : ClickEnv) :
    PageObject × (List Ev × Except PyErr PageObject) :=
  match andThen (click_element envProfile SELF_SERVICE_MM_PROFILE)
      (click_element envLogout SELF_SERVICE_LOGOUT_LINK) with
  | (t, Except.error e) => (self, (t, Except.error e))
  | (t, Except.ok _) => (self, (t, Except.ok (mkHomePage self.pageId)))

/-- `SelfServicePage.click_to_add_banking_details`
(`pages/self_service_page.py:109`): wait for `domcontentloaded`, click the
bank-details module, click the add-new button, return
`AddBankDetailsPage(self.page)`; on failure log debug info, take a
screenshot and re-raise; no attribute of `self` is assigned. -/
def click_to_add_banking_details (self : PageObject) (envBank envAdd : ClickEnv) :
    PageObject × (List Ev × Except PyErr PageObject) :=
  match andThen ([Ev.waitForLoadState "domcontentloaded"], Except.ok ()) <|
      andThen (click_element envBank SELF_SERVICE_CLICK_BANK_DETAIL)
        (click_element envAdd SELF_SERVICE_ADD_NEW_BANK_DETAIL_BUTTON) with
  | (t, Except.error e) =>
      (self, (t ++ [Ev.screenshot "error_add_bank_detail_link.png"], Except.error e))
  | (t, Except.ok _) => (self, (t, Except.ok (mkAddBankDetailsPage self.pageId)))

/-! ### AddBankDetailsPage.create_new_bank_details -/

/-- Driver outcomes for `AddBankDetailsPage.create_new_bank_details`
(`pages/add_bank_details_page.py:21`). -/
structure BankFlowEnv where
  antEnv : AntSelectEnv := {}
  bankIdFill : FillEnv := {}
  bankIdVisible : Option PyErr := none
  sortCodeFill : FillEnv := {}
  submit : ClickEnv := {}
  deriving Repr

/-- `AddBankDetailsPage.create_new_bank_details`
(`pages/add_bank_details_page.py:21`): default the arguments from settings
(the defaulted `bank_name` is computed but never used — the dropdown
selects the constant `ADD_BANK_DETAILS_PAGE.BANK_NAME`), select the bank
name from the Ant dropdown, fill the bank identifier, verify its length is
exactly 10 and its value equals the supplied identifier, fill and verify
the sort code, then click the add-bank button. -/
def create_new_bank_details (env : BankFlowEnv)
    (bank_name bank_id sort_code : Option String) : List Ev × Except PyErr Unit :=
  andThen (ant_select_option env.antEnv ADD_BANK_BANK_NAME_DROPDOWN ADD_BANK_BANK_NAME) <|
  andThen (fill_input env.bankIdFill ADD_BANK_BANK_ID
      (pyOr bank_id settings.bank_id)) <|
  andThen (verify_input_value_length env.bankIdVisible
      env.bankIdFill.fieldValueAfterFill ADD_BANK_BANK_ID 10) <|
  andThen (verify_element_has_value env.bankIdFill.fieldValueAfterFill
      ADD_BANK_BANK_ID (pyOr bank_id settings.bank_id)) <|
  andThen (fill_input env.sortCodeFill ADD_BANK_SORT_CODE
      (pyOr sort_code settings.sort_code)) <|
  andThen (verify_element_has_value env.sortCodeFill.fieldValueAfterFill
      ADD_BANK_SORT_CODE (pyOr sort_code settings.sort_code)) <|
  click_element env.submit ADD_BANK_ADD_BANK_BUTTON

/-! ### Authenticated-session fixture (`conftest.py:authenticated_page`) -/

/-- Driver outcomes for the `authenticated_page` fixture
(`conftest.py:191`). -/
structure AuthEnv where
  goto : Option PyErr := none
  emailFill : FillEnv := {}
  passwordFill : FillEnv := {}
  submit : ClickEnv := {}
  defaultCompanyVisible : Option PyErr := none
  flourMillsVisible : Option PyErr := none
  defaultLink : ClickEnv := {}
  personalNameVisible : Option PyErr := none
  profileClick : ClickEnv := {}
  logoutClick : ClickEnv := {}
  deriving Repr

/-- Setup phase of `authenticated_page` (`conftest.py:202`): navigate to
the login page, `login_user` with the settings credentials, verify the two
post-login company markers, click the default company link, verify the
self-service identity marker. -/
def authSetup (env : AuthEnv) : List Ev × Except PyErr Unit :=
  andThen (navigate_to env.goto settings.base_url) <|
  andThen (login_user (LoginEnv.mk env.emailFill env.passwordFill env.submit)
      (some settings.test_username) (some settings.test_password)) <|
  andThen (verify_element_visible env.defaultCompanyVisible LOGIN_PAGE_DEFAULT_COMPANY) <|
  andThen (verify_element_visible env.flourMillsVisible LOGIN_PAGE_FLOUR_MILLS_COMPANY) <|
  andThen (click_element env.defaultLink LOGIN_PAGE_DEFAULT_LINK) <|
  verify_element_visible env.personalNameVisible SELF_SERVICE_PERSONAL_NAME

/-- Teardown phase of `authenticated_page` (`conftest.py:233`): the logout
flow `SelfServicePage.click_to_logout` (profile avatar, then logout
link). -/
def authTeardown (env : AuthEnv) : List Ev × Except PyErr Unit :=
  andThen (click_element env.profileClick SELF_SERVICE_MM_PROFILE)
    (click_element env.logoutClick SELF_SERVICE_LOGOUT_LINK)

/-- The `authenticated_page` fixture (`conftest.py:191`): run the setup;
on success yield to the test scope and then run the logout teardown; any
exception inside the `try` is logged, a best-effort screenshot
`auth_error` is taken, and the exception is re-raised. -/
def authenticated_page (env : AuthEnv) : List Ev × Except PyErr Unit :=
  match authSetup env with
  | (t, Except.error e) =>
      (t ++ [Ev.logAuthError, Ev.screenshot "auth_error"], Except.error e)
  | (t, Except.ok _) =>
      match authTeardown env with
      | (t2, Except.ok _) => (t ++ [Ev.yieldScope] ++ t2, Except.ok ())
      | (t2, Except.error e) =>
          (t ++ [Ev.yieldScope] ++ t2 ++ [Ev.logAuthError, Ev.screenshot "auth_error"],
            Except.error e)

/-- The session states of the authenticated-session protocol. -/
inductive AuthState where
  | anonymous
  | loggingIn
  | authenticated
  | loggedOut
  deriving DecidableEq, Repr

/-- State transitions of the authenticated-session protocol, read off the
trace: navigation to the login page starts the login attempt, a successful
check of the self-service identity marker reaches the authenticated state,
and a click of the logout link leaves it. -/
def authStep (s : AuthState) (ev : Ev) : AuthState :=
  match s, ev with
  | AuthState.anonymous, Ev.navigateGoto _ => AuthState.loggingIn
  | AuthState.loggingIn, Ev.expectVisible sel =>
      if sel = SELF_SERVICE_PERSONAL_NAME then AuthState.authenticated
      else AuthState.loggingIn
  | AuthState.authenticated, Ev.clickAction sel =>
      if sel = SELF_SERVICE_LOGOUT_LINK then AuthState.loggedOut
      else AuthState.authenticated
  | s, _ => s

/-! ### Success traces and concrete environments -/

/-- Trace of a `click_element` call in which every wait succeeds. -/
def clickOkTrace (selector : String) : List Ev :=
  [ Ev.logElementState selector, Ev.waitAttached selector, Ev.waitVisible selector,
    Ev.scrollIntoView selector, Ev.waitEnabled selector, Ev.clickAction selector ]

/-- Trace of a `fill_input` call in which every step succeeds. -/
def fillOkTrace (selector value : String) : List Ev :=
  [ Ev.logElementState selector, Ev.waitVisible selector, Ev.scrollIntoView selector,
    Ev.fillAction selector value, Ev.expectValue selector value ]

/-- The full trace of the `authenticated_page` fixture when every setup and
teardown step succeeds. -/
def authSuccessTrace : List Ev :=
  [Ev.navigateGoto settings.base_url] ++
  fillOkTrace LOGIN_PAGE_EMAIL_INPUT settings.test_username ++
  fillOkTrace LOGIN_PAGE_PASSWORD_INPUT settings.test_password ++
  clickOkTrace LOGIN_PAGE_SUBMIT_BUTTON ++
  [Ev.waitTimeout 5000] ++
  [Ev.expectVisible LOGIN_PAGE_DEFAULT_COMPANY] ++
  [Ev.expectVisible LOGIN_PAGE_FLOUR_MILLS_COMPANY] ++
  clickOkTrace LOGIN_PAGE_DEFAULT_LINK ++
  [Ev.expectVisible SELF_SERVICE_PERSONAL_NAME] ++
  [Ev.yieldScope] ++
  clickOkTrace SELF_SERVICE_MM_PROFILE ++
  clickOkTrace SELF_SERVICE_LOGOUT_LINK

/-- Environment in which the dropdown panel never reaches a visible state:
the visibility wait raises a driver timeout. -/
def antPanelStuckEnv : AntSelectEnv :=
  { panelVisibleWait := some (PyErr.timeoutError "Timeout 10000ms exceeded") }

/-- Environment in which the primary role lookup raises and the fallback
option-visibility wait also raises a driver timeout. -/
def antFallbackFailEnv : AntSelectEnv :=
  { roleOptionVisibleWait := some (PyErr.timeoutError "Timeout 5000ms exceeded"),
    fallbackOptionVisibleWait := some (PyErr.timeoutError "Timeout 5000ms exceeded (fallback)") }

/-- Environment in which the primary role lookup raises but the fallback
title-attribute lookup succeeds. -/
def antFallbackOkEnv : AntSelectEnv :=
  { spinnerPresent := false,
    roleOptionVisibleWait := some (PyErr.timeoutError "Timeout 5000ms exceeded") }

/-- Download environment serving a file named `report.exe`. -/
def dlExeEnv : DownloadEnv :=
  { tempPath := some "/tmp/playwright-artifacts/download-1", tempPathExists := true,
    suggestedFilename := "report.exe" }

/-- Download environment serving a file named `report.pdf`. -/
def dlPdfEnv : DownloadEnv :=
  { tempPath := some "/tmp/playwright-artifacts/download-2", tempPathExists := true,
    suggestedFilename := "report.pdf" }

/-- Fill environment whose field truncates the supplied value to four
characters. -/
def truncatingFillEnv : FillEnv := { fieldValueAfterFill := "UNAF" }

/-- Login environment in which both fields faithfully echo the empty
default credentials. -/
def emptyCredLoginEnv : LoginEnv :=
  { emailFill := { fieldValueAfterFill := "" },
    passwordFill := { fieldValueAfterFill := "" } }

/-- Bank-details environment whose bank-identifier field faithfully echoes
the default settings identifier `UNAFNGLA228`. -/
def bankDefaultEnv : BankFlowEnv :=
  { bankIdFill := { fieldValueAfterFill := settings.bank_id },
    sortCodeFill := { fieldValueAfterFill := settings.sort_code } }

/-- Auth environment in which every step succeeds and both credential
fields echo the empty default credentials. -/
def authOkEnv : AuthEnv :=
  { emailFill := { fieldValueAfterFill := "" },
    passwordFill := { fieldValueAfterFill := "" } }

/-- Auth environment whose initial navigation fails. -/
def authNavFailEnv : AuthEnv :=
  { goto := some (PyErr.timeoutError "net::ERR_NAME_NOT_RESOLVED") }

/-- Click environment whose visibility wait times out. -/
def clickVisibleFailEnv : ClickEnv :=
  { visibleWait := some (PyErr.timeoutError "Timeout 30000ms exceeded") }

/-- Trace of a successful `authSetup` run. -/
def authSetupOkTrace : List Ev :=
  [Ev.navigateGoto settings.base_url] ++
  (fillOkTrace LOGIN_PAGE_EMAIL_INPUT settings.test_username ++
    (fillOkTrace LOGIN_PAGE_PASSWORD_INPUT settings.test_password ++
      (clickOkTrace LOGIN_PAGE_SUBMIT_BUTTON ++ [Ev.waitTimeout 5000]))) ++
  [Ev.expectVisible LOGIN_PAGE_DEFAULT_COMPANY] ++
  [Ev.expectVisible LOGIN_PAGE_FLOUR_MILLS_COMPANY] ++
  clickOkTrace LOGIN_PAGE_DEFAULT_LINK ++
  [Ev.expectVisible SELF_SERVICE_PERSONAL_NAME]

/-! ## Helper lemmas -/

theorem runSteps_subset (l : List (Ev × Option PyErr)) :
    (runSteps l).1 ⊆ l.map Prod.fst := by
  induction l with
  | nil => simp [runSteps]
  | cons hd tl ih =>
    rcases hd with ⟨ev, o⟩
    cases o with
    | none =>
        simp only [runSteps, List.map_cons]
        exact List.cons_subset_cons ev ih
    | some e => simp [runSteps]

theorem runSteps_ok_eq (l : List (Ev × Option PyErr))
    (h : (runSteps l).2 = Except.ok ()) :
    runSteps l = (l.map Prod.fst, Except.ok ()) := by
  induction l with
  | nil => rfl
  | cons hd tl ih =>
    rcases hd with ⟨ev, o⟩
    cases o with
    | none =>
        simp only [runSteps] at h ⊢
        rw [ih h]
        simp
    | some e => simp [runSteps] at h

theorem withScreenshot_snd (n : String) (x : List Ev × Except PyErr Unit) :
    (withScreenshotOnFailure n x).2 = x.2 := by
  rcases x with ⟨t, r⟩
  cases r <;> rfl

theorem withScreenshot_ok (n : String) (x : List Ev × Except PyErr Unit)
    (h : x.2 = Except.ok ()) : withScreenshotOnFailure n x = x := by
  rcases x with ⟨t, r⟩
  cases r with
  | error e => simp at h
  | ok u => rfl

theorem withScreenshot_subset (n : String) (x : List Ev × Except PyErr Unit) :
    (withScreenshotOnFailure n x).1 ⊆ x.1 ++ [Ev.screenshot n] := by
  rcases x with ⟨t, r⟩
  cases r with
  | error e => simp [withScreenshotOnFailure]
  | ok u => simp [withScreenshotOnFailure]

theorem andThen_of_ok {a : List Ev × Except PyErr Unit} (b : List Ev × Except PyErr Unit)
    (h : a.2 = Except.ok ()) : andThen a b = (a.1 ++ b.1, b.2) := by
  rcases a with ⟨t, r⟩
  cases r with
  | error e => simp at h
  | ok u => rfl

theorem andThen_of_error {a : List Ev × Except PyErr Unit} (b : List Ev × Except PyErr Unit)
    {e : PyErr} (h : a.2 = Except.error e) : andThen a b = a := by
  rcases a with ⟨t, r⟩
  cases r with
  | error e2 => rfl
  | ok u => simp at h

theorem andThen_ok_iff (a b : List Ev × Except PyErr Unit) :
    (andThen a b).2 = Except.ok () ↔ (a.2 = Except.ok () ∧ b.2 = Except.ok ()) := by
  rcases a with ⟨t, r⟩
  cases r <;> simp [andThen]

theorem mem_andThen {ev : Ev} {a b : List Ev × Except PyErr Unit}
    (h : ev ∈ (andThen a b).1) : ev ∈ a.1 ∨ (a.2 = Except.ok () ∧ ev ∈ b.1) := by
  rcases a with ⟨t, r⟩
  cases r with
  | error e => exact Or.inl h
  | ok u =>
      rcases List.mem_append.mp h with h1 | h2
      · exact Or.inl h1
      · exact Or.inr ⟨rfl, h2⟩

theorem click_element_snd (env : ClickEnv) (sel : String) :
    (click_element env sel).2 =
      (match clickFirstErr env with
        | none => Except.ok ()
        | some e => Except.error e) := by
  rcases env with ⟨a, v, s, en, c⟩
  cases a <;> cases v <;> cases s <;> cases en <;> cases c <;> rfl

theorem click_element_ok_eq (env : ClickEnv) (sel : String)
    (h : clickFirstErr env = none) :
    click_element env sel = (clickOkTrace sel, Except.ok ()) := by
  rcases env with ⟨a, v, s, en, c⟩
  cases a <;> cases v <;> cases s <;> cases en <;> cases c <;>
    first
      | rfl
      | simp [clickFirstErr] at h

theorem click_element_ok_iff (env : ClickEnv) (sel : String) :
    (click_element env sel).2 = Except.ok () ↔ clickFirstErr env = none := by
  rw [click_element_snd]
  cases h : clickFirstErr env <;> simp

theorem click_element_trace_subset (env : ClickEnv) (sel : String) :
    (click_element env sel).1 ⊆ clickOkTrace sel ++ [Ev.screenshot "click_error"] := by
  intro ev h
  unfold click_element at h
  have h1 := withScreenshot_subset "click_error" _ h
  rcases List.mem_append.mp h1 with h2 | h2
  · have h3 := runSteps_subset _ h2
    simp only [List.map_cons, List.map_nil] at h3
    exact List.mem_append_left _ h3
  · exact List.mem_append_right _ h2

theorem clickAction_mem_click_element {s : String} {env : ClickEnv} {sel : String}
    (h : Ev.clickAction s ∈ (click_element env sel).1) : s = sel := by
  have h1 := click_element_trace_subset env sel h
  simp [clickOkTrace] at h1
  exact h1

theorem fill_input_snd (env : FillEnv) (sel v : String) :
    (fill_input env sel v).2 =
      (match fillFirstErr env v with
        | none => Except.ok ()
        | some e => Except.error e) := by
  rcases env with ⟨vw, s, f, val⟩
  cases vw <;> cases s <;> cases f <;> by_cases hv : val = v <;>
    simp [fill_input, fillFirstErr, toHaveValueResult, runSteps,
      withScreenshotOnFailure, hv]

theorem fill_input_ok_eq (env : FillEnv) (sel v : String)
    (h : fillFirstErr env v = none) :
    fill_input env sel v = (fillOkTrace sel v, Except.ok ()) := by
  rcases env with ⟨vw, s, f, val⟩
  cases vw <;> cases s <;> cases f <;> by_cases hv : val = v <;>
    simp_all [fill_input, fillFirstErr, toHaveValueResult, runSteps,
      withScreenshotOnFailure, fillOkTrace]

theorem fill_input_ok_iff (env : FillEnv) (sel v : String) :
    (fill_input env sel v).2 = Except.ok () ↔ fillFirstErr env v = none := by
  rw [fill_input_snd]
  cases h : fillFirstErr env v <;> simp

theorem fill_input_ok_value {env : FillEnv} {sel v : String}
    (h : (fill_input env sel v).2 = Except.ok ()) : env.fieldValueAfterFill = v := by
  have h1 := (fill_input_ok_iff env sel v).mp h
  rcases env with ⟨vw, s, f, val⟩
  cases vw <;> cases s <;> cases f <;> by_cases hv : val = v <;>
    simp_all [fillFirstErr, toHaveValueResult]

theorem fill_input_trace_subset (env : FillEnv) (sel v : String) :
    (fill_input env sel v).1 ⊆ fillOkTrace sel v ++ [Ev.screenshot "fill_error"] := by
  intro ev h
  unfold fill_input at h
  have h1 := withScreenshot_subset "fill_error" _ h
  rcases List.mem_append.mp h1 with h2 | h2
  · have h3 := runSteps_subset _ h2
    simp only [List.map_cons, List.map_nil] at h3
    exact List.mem_append_left _ h3
  · exact List.mem_append_right _ h2

theorem clickAction_not_mem_fill {s : String} (env : FillEnv) (sel v : String) :
    Ev.clickAction s ∉ (fill_input env sel v).1 := by
  intro h
  have h1 := fill_input_trace_subset env sel v h
  simp [fillOkTrace] at h1

theorem fillAction_mem_fill {s val : String} {env : FillEnv} {sel v : String}
    (h : Ev.fillAction s val ∈ (fill_input env sel v).1) : s = sel ∧ val = v := by
  have h1 := fill_input_trace_subset env sel v h
  simp [fillOkTrace] at h1
  exact h1

theorem verify_visible_snd (r : Option PyErr) (sel : String) :
    (verify_element_visible r sel).2 =
      (match r with
        | none => Except.ok ()
        | some e => Except.error e) := by
  cases r <;> rfl

theorem verify_visible_ok_eq (sel : String) :
    verify_element_visible none sel = ([Ev.expectVisible sel], Except.ok ()) := rfl

theorem verify_visible_trace_subset (r : Option PyErr) (sel : String) :
    (verify_element_visible r sel).1 ⊆
      [Ev.expectVisible sel, Ev.screenshot "verify_visible_error"] := by
  cases r <;> simp [verify_element_visible, runSteps, withScreenshotOnFailure]

theorem navigate_snd (r : Option PyErr) (url : String) :
    (navigate_to r url).2 =
      (match r with
        | none => Except.ok ()
        | some e => Except.error e) := by
  cases r <;> rfl

theorem navigate_ok_eq (url : String) :
    navigate_to none url = ([Ev.navigateGoto url], Except.ok ()) := rfl

theorem navigate_trace_subset (r : Option PyErr) (url : String) :
    (navigate_to r url).1 ⊆ [Ev.navigateGoto url, Ev.screenshot "navigation_error"] := by
  cases r <;> simp [navigate_to, runSteps, withScreenshotOnFailure]

theorem verify_has_value_snd (fv sel v : String) :
    (verify_element_has_value fv sel v).2 =
      (if fv = v then Except.ok () else
        Except.error (PyErr.assertionError
          ("Locator expected to have value " ++ v ++ " but had " ++ fv))) := by
  by_cases hv : fv = v <;>
    simp [verify_element_has_value, toHaveValueResult, runSteps, hv]

theorem verify_has_value_ok {fv sel v : String}
    (h : (verify_element_has_value fv sel v).2 = Except.ok ()) : fv = v := by
  by_cases hv : fv = v
  · exact hv
  · rw [verify_has_value_snd] at h
    simp [hv] at h

theorem verify_has_value_trace_subset (fv sel v : String) :
    (verify_element_has_value fv sel v).1 ⊆ [Ev.expectValue sel v] := by
  by_cases hv : fv = v <;>
    simp [verify_element_has_value, toHaveValueResult, runSteps, hv]

theorem verifyLen_ok {vis : Option PyErr} {fv sel : String} {n : Nat}
    (h : (verify_input_value_length vis fv sel n).2 = Except.ok ()) :
    reExactLenMatches fv n = true := by
  cases vis <;> by_cases hm : reExactLenMatches fv n <;>
    simp_all [verify_input_value_length, runSteps]

theorem verifyLen_trace_subset (vis : Option PyErr) (fv sel : String) (n : Nat) :
    (verify_input_value_length vis fv sel n).1 ⊆
      [Ev.expectVisible sel, Ev.expectValueLen sel n] := by
  cases vis <;> by_cases hm : reExactLenMatches fv n <;>
    simp [verify_input_value_length, runSteps, hm]

theorem antPrimary_trace_subset (env : AntSelectEnv) (txt : String) :
    (antPrimary env txt).1 ⊆
      [Ev.waitRoleOptionVisible txt, Ev.clickRoleOption txt, Ev.waitPanelHidden] := by
  intro ev h
  have h1 := runSteps_subset _ h
  simpa using h1

theorem antFallback_trace_subset (env : AntSelectEnv) (txt : String) :
    (antFallback env txt).1 ⊆
      [Ev.waitFallbackOptionVisible txt, Ev.clickFallbackOption txt, Ev.waitPanelHidden] := by
  intro ev h
  have h1 := runSteps_subset _ h
  simpa using h1

theorem antFallback_head (env : AntSelectEnv) (txt : String) :
    Ev.waitFallbackOptionVisible txt ∈ (antFallback env txt).1 := by
  rcases env with ⟨sp, sh, tc, pv, rv, rc, ph, fv, fc, pf⟩
  cases fv <;> cases fc <;> cases pf <;> simp [antFallback, runSteps]

theorem antFallback_snd (env : AntSelectEnv) (txt : String) :
    (antFallback env txt).2 =
      (match antFallbackFirstErr env with
        | none => Except.ok ()
        | some e => Except.error e) := by
  rcases env with ⟨sp, sh, tc, pv, rv, rc, ph, fv, fc, pf⟩
  cases fv <;> cases fc <;> cases pf <;> rfl

theorem antFallback_ok_eq (env : AntSelectEnv) (txt : String)
    (h : antFallbackFirstErr env = none) :
    antFallback env txt =
      ([Ev.waitFallbackOptionVisible txt, Ev.clickFallbackOption txt, Ev.waitPanelHidden],
        Except.ok ()) := by
  rcases env with ⟨sp, sh, tc, pv, rv, rc, ph, fv, fc, pf⟩
  cases fv <;> cases fc <;> cases pf <;>
    first
      | rfl
      | simp [antFallbackFirstErr] at h

theorem antPrimary_ok_iff (env : AntSelectEnv) (txt : String) :
    (antPrimary env txt).2 = Except.ok () ↔ ¬ antPrimaryFails env := by
  rcases env with ⟨sp, sh, tc, pv, rv, rc, ph, fv, fc, pf⟩
  cases rv <;> cases rc <;> cases ph <;>
    simp [antPrimary, antPrimaryFails, runSteps]

theorem antPrimary_ok_eq (env : AntSelectEnv) (txt : String)
    (h : ¬ antPrimaryFails env) :
    antPrimary env txt =
      ([Ev.waitRoleOptionVisible txt, Ev.clickRoleOption txt, Ev.waitPanelHidden],
        Except.ok ()) := by
  rcases env with ⟨sp, sh, tc, pv, rv, rc, ph, fv, fc, pf⟩
  cases rv <;> cases rc <;> cases ph <;>
    first
      | rfl
      | simp [antPrimaryFails] at h

theorem antPrimary_err_of_fails (env : AntSelectEnv) (txt : String)
    (h : antPrimaryFails env) : ∃ e, (antPrimary env txt).2 = Except.error e := by
  cases hr : (antPrimary env txt).2 with
  | error e => exact ⟨e, rfl⟩
  | ok u =>
      exfalso
      have : (antPrimary env txt).2 = Except.ok () := by rw [hr]
      exact (antPrimary_ok_iff env txt).mp this h

theorem reExactLenMatches_eq_false {s : String} {n : Nat}
    (hnl : s.data.all (fun c => c != Char.ofNat 10) = true)
    (hlen : s.data.length ≠ n) : reExactLenMatches s n = false := by
  unfold reExactLenMatches
  simp only [Bool.or_eq_false_iff, Bool.and_eq_false_iff]
  constructor
  · left
    simpa using hlen
  · right
    cases hg : s.data.getLast? with
    | none => simp
    | some c =>
        have hmem : c ∈ s.data.getLast? := by simp [hg]
        obtain ⟨hne, hcl⟩ := List.mem_getLast?_eq_getLast hmem
        have hc : c ∈ s.data := hcl ▸ List.getLast_mem hne
        have := List.all_eq_true.mp hnl c hc
        simp only [bne_iff_ne, ne_eq] at this
        simp [hg, this]

theorem fallbackWait_not_mem_primary (env : AntSelectEnv) (txt : String) :
    Ev.waitFallbackOptionVisible txt ∉ (antPrimary env txt).1 := by
  intro h
  have h1 := antPrimary_trace_subset env txt h
  simp at h1

theorem antPrimary_fails_iff_not_ok (env : AntSelectEnv) (txt : String) :
    antPrimaryFails env ↔ (antPrimary env txt).2 ≠ Except.ok () := by
  constructor
  · intro hf hok
    exact (antPrimary_ok_iff env txt).mp hok hf
  · intro hne
    by_contra hnf
    exact hne ((antPrimary_ok_iff env txt).mpr hnf)

theorem ant_proceeds_when_spinner_absent (env : AntSelectEnv) (loc txt : String)
    (h : env.spinnerPresent = false) :
    ∃ rest, (ant_select_option env loc txt).1 =
      Ev.waitSpinnerHidden :: Ev.clickTrigger loc :: rest := by
  have hsw : spinnerWaitResult env = none := by simp [spinnerWaitResult, h]
  cases htc : env.triggerClick with
  | some e => exact ⟨[], by simp [ant_select_option, hsw, htc]⟩
  | none =>
    cases hpv : env.panelVisibleWait with
    | some e =>
        exact ⟨[Ev.waitPanelVisible], by simp [ant_select_option, hsw, htc, hpv]⟩
    | none =>
      rcases hp : antPrimary env txt with ⟨pt, pr⟩
      cases pr with
      | ok u =>
          exact ⟨Ev.waitPanelVisible :: pt,
            by simp [ant_select_option, hsw, htc, hpv, hp]⟩
      | error e =>
          exact ⟨Ev.waitPanelVisible :: (pt ++ (antFallback env txt).1),
            by simp [ant_select_option, hsw, htc, hpv, hp]⟩

theorem ant_fallback_iff (env : AntSelectEnv) (loc txt : String) :
    Ev.waitFallbackOptionVisible txt ∈ (ant_select_option env loc txt).1 ↔
      (env.triggerClick = none ∧ env.panelVisibleWait = none ∧ antPrimaryFails env) := by
  cases htc : env.triggerClick with
  | some e =>
      cases hsw : spinnerWaitResult env <;> simp [ant_select_option, hsw, htc]
  | none =>
    cases hpv : env.panelVisibleWait with
    | some e =>
        cases hsw : spinnerWaitResult env <;> simp [ant_select_option, hsw, htc, hpv]
    | none =>
      rcases hp : antPrimary env txt with ⟨pt, pr⟩
      cases pr with
      | ok u =>
          have hnf : ¬ antPrimaryFails env := by
            refine (antPrimary_ok_iff env txt).mp ?_
            rw [hp]
          have hnm : Ev.waitFallbackOptionVisible txt ∉ pt := by
            intro hmem
            exact fallbackWait_not_mem_primary env txt (by rw [hp]; exact hmem)
          cases hsw : spinnerWaitResult env <;>
            simp [ant_select_option, hsw, htc, hpv, hp, hnf, hnm]
      | error e =>
          have hf : antPrimaryFails env := by
            refine (antPrimary_fails_iff_not_ok env txt).mpr ?_
            rw [hp]
            simp
          have hnm : Ev.waitFallbackOptionVisible txt ∉ pt := by
            intro hmem
            exact fallbackWait_not_mem_primary env txt (by rw [hp]; exact hmem)
          have hmemfb := antFallback_head env txt
          cases hsw : spinnerWaitResult env <;>
            simp [ant_select_option, hsw, htc, hpv, hp, hf, hnm, hmemfb]

theorem ant_panel_open_fail (env : AntSelectEnv) (loc txt : String) (e : PyErr)
    (htc : env.triggerClick = none) (hpv : env.panelVisibleWait = some e) :
    (ant_select_option env loc txt).2 = Except.error e := by
  cases hsw : spinnerWaitResult env <;> simp [ant_select_option, hsw, htc, hpv]

theorem ant_fallback_result (env : AntSelectEnv) (loc txt : String)
    (htc : env.triggerClick = none) (hpv : env.panelVisibleWait = none)
    (hf : antPrimaryFails env) :
    (ant_select_option env loc txt).2 =
      (match antFallbackFirstErr env with
        | none => Except.ok ()
        | some e2 => Except.error e2) := by
  rcases hp : antPrimary env txt with ⟨pt, pr⟩
  cases pr with
  | ok u =>
      exfalso
      refine (antPrimary_fails_iff_not_ok env txt).mp hf ?_
      rw [hp]
  | error e =>
      have hfb := antFallback_snd env txt
      cases hsw : spinnerWaitResult env <;>
        simp [ant_select_option, hsw, htc, hpv, hp, hfb]

theorem ant_success_shape (env : AntSelectEnv) (loc txt : String)
    (h : (ant_select_option env loc txt).2 = Except.ok ()) :
    (∃ t0, (ant_select_option env loc txt).1
        = t0 ++ [Ev.clickRoleOption txt, Ev.waitPanelHidden]) ∨
    (∃ t0, (ant_select_option env loc txt).1
        = t0 ++ [Ev.clickFallbackOption txt, Ev.waitPanelHidden]) := by
  cases htc : env.triggerClick with
  | some e =>
      exfalso
      cases hsw : spinnerWaitResult env <;>
        simp [ant_select_option, hsw, htc] at h
  | none =>
    cases hpv : env.panelVisibleWait with
    | some e =>
        exfalso
        cases hsw : spinnerWaitResult env <;>
          simp [ant_select_option, hsw, htc, hpv] at h
    | none =>
      rcases hp : antPrimary env txt with ⟨pt, pr⟩
      cases pr with
      | ok u =>
          left
          have hnf : ¬ antPrimaryFails env := by
            refine (antPrimary_ok_iff env txt).mp ?_
            rw [hp]
          have hpe := antPrimary_ok_eq env txt hnf
          rw [hp] at hpe
          have hpt : pt = [Ev.waitRoleOptionVisible txt, Ev.clickRoleOption txt,
              Ev.waitPanelHidden] := by
            simpa using congrArg Prod.fst hpe
          cases hsw : spinnerWaitResult env with
          | none =>
              exact ⟨[Ev.waitSpinnerHidden, Ev.clickTrigger loc, Ev.waitPanelVisible,
                  Ev.waitRoleOptionVisible txt],
                by simp [ant_select_option, hsw, htc, hpv, hp, hpt]⟩
          | some e2 =>
              exact ⟨[Ev.waitSpinnerHidden, Ev.spinnerErrorSwallowed,
                  Ev.clickTrigger loc, Ev.waitPanelVisible, Ev.waitRoleOptionVisible txt],
                by simp [ant_select_option, hsw, htc, hpv, hp, hpt]⟩
      | error e =>
          right
          have hok : (antFallback env txt).2 = Except.ok () := by
            have hr : (ant_select_option env loc txt).2 = (antFallback env txt).2 := by
              cases hsw : spinnerWaitResult env <;>
                simp [ant_select_option, hsw, htc, hpv, hp]
            rw [← hr, h]
          have hfe : antFallbackFirstErr env = none := by
            have := antFallback_snd env txt
            rw [hok] at this
            cases hfe2 : antFallbackFirstErr env with
            | none => rfl
            | some e2 => rw [hfe2] at this; simp at this
          have hfbe := antFallback_ok_eq env txt hfe
          cases hsw : spinnerWaitResult env with
          | none =>
              exact ⟨[Ev.waitSpinnerHidden, Ev.clickTrigger loc, Ev.waitPanelVisible]
                  ++ pt ++ [Ev.waitFallbackOptionVisible txt],
                by simp [ant_select_option, hsw, htc, hpv, hp, hfbe]⟩
          | some e2 =>
              exact ⟨[Ev.waitSpinnerHidden, Ev.spinnerErrorSwallowed, Ev.clickTrigger loc,
                  Ev.waitPanelVisible] ++ pt ++ [Ev.waitFallbackOptionVisible txt],
                by simp [ant_select_option, hsw, htc, hpv, hp, hfbe]⟩

theorem clickAction_not_mem_ant (env : AntSelectEnv) (loc txt s : String) :
    Ev.clickAction s ∉ (ant_select_option env loc txt).1 := by
  intro h
  have hpt : Ev.clickAction s ∉ (antPrimary env txt).1 := by
    intro hm
    have := antPrimary_trace_subset env txt hm
    simp at this
  have hfb : Ev.clickAction s ∉ (antFallback env txt).1 := by
    intro hm
    have := antFallback_trace_subset env txt hm
    simp at this
  cases htc : env.triggerClick with
  | some e =>
      cases hsw : spinnerWaitResult env <;>
        simp [ant_select_option, hsw, htc] at h
  | none =>
    cases hpv : env.panelVisibleWait with
    | some e =>
        cases hsw : spinnerWaitResult env <;>
          simp [ant_select_option, hsw, htc, hpv] at h
    | none =>
      rcases hp : antPrimary env txt with ⟨pt, pr⟩
      rw [hp] at hpt
      cases pr with
      | ok u =>
          cases hsw : spinnerWaitResult env <;>
            simp [ant_select_option, hsw, htc, hpv, hp] at h <;>
            exact hpt h
      | error e =>
          cases hsw : spinnerWaitResult env <;>
            simp [ant_select_option, hsw, htc, hpv, hp] at h <;>
            rcases h with h | h
          · exact hpt h
          · exact hfb h
          · exact hpt h
          · exact hfb h

theorem clickAction_not_mem_verifyLen {s : String} (vis : Option PyErr)
    (fv sel : String) (n : Nat) :
    Ev.clickAction s ∉ (verify_input_value_length vis fv sel n).1 := by
  intro h
  have h1 := verifyLen_trace_subset vis fv sel n h
  simp at h1

theorem clickAction_not_mem_verifyVal {s : String} (fv sel v : String) :
    Ev.clickAction s ∉ (verify_element_has_value fv sel v).1 := by
  intro h
  have h1 := verify_has_value_trace_subset fv sel v h
  simp at h1

theorem fillAction_not_mem_click {s v : String} (env : ClickEnv) (sel : String) :
    Ev.fillAction s v ∉ (click_element env sel).1 := by
  intro h
  have h1 := click_element_trace_subset env sel h
  simp [clickOkTrace] at h1

theorem navigate_ok_iff (r : Option PyErr) (url : String) :
    (navigate_to r url).2 = Except.ok () ↔ r = none := by
  cases r <;> simp [navigate_to, runSteps, withScreenshotOnFailure]

theorem verify_visible_ok_iff (r : Option PyErr) (sel : String) :
    (verify_element_visible r sel).2 = Except.ok () ↔ r = none := by
  cases r <;> simp [verify_element_visible, runSteps, withScreenshotOnFailure]

theorem login_user_ok_eq (env : LoginEnv) (email password : Option String)
    (h : (login_user env email password).2 = Except.ok ()) :
    login_user env email password =
      (fillOkTrace LOGIN_PAGE_EMAIL_INPUT (pyOr email settings.test_username) ++
        (fillOkTrace LOGIN_PAGE_PASSWORD_INPUT (pyOr password settings.test_password) ++
          (clickOkTrace LOGIN_PAGE_SUBMIT_BUTTON ++ [Ev.waitTimeout 5000])),
        Except.ok ()) := by
  unfold login_user at h ⊢
  have h1 := (andThen_ok_iff _ _).mp h
  have h2 := (andThen_ok_iff _ _).mp h1.2
  have h3 := (andThen_ok_iff _ _).mp h2.2
  rw [fill_input_ok_eq _ _ _ ((fill_input_ok_iff _ _ _).mp h1.1),
    fill_input_ok_eq _ _ _ ((fill_input_ok_iff _ _ _).mp h2.1),
    click_element_ok_eq _ _ ((click_element_ok_iff _ _).mp h3.1)]
  simp [andThen]

theorem authSetup_ok_eq (env : AuthEnv) (h : (authSetup env).2 = Except.ok ()) :
    authSetup env = (authSetupOkTrace, Except.ok ()) := by
  unfold authSetup at h ⊢
  have h1 := (andThen_ok_iff _ _).mp h
  have h2 := (andThen_ok_iff _ _).mp h1.2
  have h3 := (andThen_ok_iff _ _).mp h2.2
  have h4 := (andThen_ok_iff _ _).mp h3.2
  have h5 := (andThen_ok_iff _ _).mp h4.2
  have hg : env.goto = none := (navigate_ok_iff _ _).mp h1.1
  have hd : env.defaultCompanyVisible = none := (verify_visible_ok_iff _ _).mp h3.1
  have hf : env.flourMillsVisible = none := (verify_visible_ok_iff _ _).mp h4.1
  have hp : env.personalNameVisible = none := (verify_visible_ok_iff _ _).mp h5.2
  rw [hg, hd, hf, hp]
  rw [navigate_ok_eq, login_user_ok_eq _ _ _ h2.1,
    click_element_ok_eq _ _ ((click_element_ok_iff _ _).mp h5.1)]
  simp [andThen, verify_element_visible, runSteps, withScreenshotOnFailure,
    authSetupOkTrace, pyOr]

theorem authTeardown_ok_eq (env : AuthEnv) (h : (authTeardown env).2 = Except.ok ()) :
    authTeardown env =
      (clickOkTrace SELF_SERVICE_MM_PROFILE ++ clickOkTrace SELF_SERVICE_LOGOUT_LINK,
        Except.ok ()) := by
  unfold authTeardown at h ⊢
  have h1 := (andThen_ok_iff _ _).mp h
  rw [click_element_ok_eq _ _ ((click_element_ok_iff _ _).mp h1.1),
    click_element_ok_eq _ _ ((click_element_ok_iff _ _).mp h1.2)]
  rfl

theorem clickAction_mem_authSetup {s : String} {env : AuthEnv}
    (h : Ev.clickAction s ∈ (authSetup env).1) :
    s = LOGIN_PAGE_SUBMIT_BUTTON ∨ s = LOGIN_PAGE_DEFAULT_LINK := by
  unfold authSetup at h
  rcases mem_andThen h with h | ⟨_, h⟩
  · have h1 := navigate_trace_subset _ _ h
    simp at h1
  rcases mem_andThen h with h | ⟨_, h⟩
  · unfold login_user at h
    rcases mem_andThen h with h | ⟨_, h⟩
    · exact absurd h (clickAction_not_mem_fill _ _ _)
    rcases mem_andThen h with h | ⟨_, h⟩
    · exact absurd h (clickAction_not_mem_fill _ _ _)
    rcases mem_andThen h with h | ⟨_, h⟩
    · exact Or.inl (clickAction_mem_click_element h)
    · simp at h
  rcases mem_andThen h with h | ⟨_, h⟩
  · have h1 := verify_visible_trace_subset _ _ h
    simp at h1
  rcases mem_andThen h with h | ⟨_, h⟩
  · have h1 := verify_visible_trace_subset _ _ h
    simp at h1
  rcases mem_andThen h with h | ⟨_, h⟩
  · exact Or.inr (clickAction_mem_click_element h)
  · have h1 := verify_visible_trace_subset _ _ h
    simp at h1

theorem yieldScope_not_mem_authSetup (env : AuthEnv) :
    Ev.yieldScope ∉ (authSetup env).1 := by
  intro h
  unfold authSetup at h
  rcases mem_andThen h with h | ⟨_, h⟩
  · have h1 := navigate_trace_subset _ _ h
    simp at h1
  rcases mem_andThen h with h | ⟨_, h⟩
  · unfold login_user at h
    rcases mem_andThen h with h | ⟨_, h⟩
    · have h1 := fill_input_trace_subset _ _ _ h
      simp [fillOkTrace] at h1
    rcases mem_andThen h with h | ⟨_, h⟩
    · have h1 := fill_input_trace_subset _ _ _ h
      simp [fillOkTrace] at h1
    rcases mem_andThen h with h | ⟨_, h⟩
    · have h1 := click_element_trace_subset _ _ h
      simp [clickOkTrace] at h1
    · simp at h
  rcases mem_andThen h with h | ⟨_, h⟩
  · have h1 := verify_visible_trace_subset _ _ h
    simp at h1
  rcases mem_andThen h with h | ⟨_, h⟩
  · have h1 := verify_visible_trace_subset _ _ h
    simp at h1
  rcases mem_andThen h with h | ⟨_, h⟩
  · have h1 := click_element_trace_subset _ _ h
    simp [clickOkTrace] at h1
  · have h1 := verify_visible_trace_subset _ _ h
    simp at h1

/-! ## Claim theorems -/

/-- C1: for every call to `ant_select_option` with a dropdown locator and
option text, (a) when the loading indicator is absent the pre-check is
treated as success (no error is swallowed) and the algorithm proceeds to
click the trigger, (b) the fallback title-attribute lookup is attempted
exactly when the dropdown opened and some step of the primary
accessible-role strategy raised, and (c) on every success path the
operation clicks the option matching the given text (by role or by title)
and then waits for the dropdown panel to become hidden before
returning. -/
theorem ant_select_option_contract : ∀ (env : AntSelectEnv) (loc txt : String),
    (env.spinnerPresent = false →
      ∃ rest, (ant_select_option env loc txt).1 =
        Ev.waitSpinnerHidden :: Ev.clickTrigger loc :: rest) ∧
    (Ev.waitFallbackOptionVisible txt ∈ (ant_select_option env loc txt).1 ↔
      (env.triggerClick = none ∧ env.panelVisibleWait = none ∧ antPrimaryFails env)) ∧
    ((ant_select_option env loc txt).2 = Except.ok () →
      (∃ t0, (ant_select_option env loc txt).1
          = t0 ++ [Ev.clickRoleOption txt, Ev.waitPanelHidden]) ∨
      (∃ t0, (ant_select_option env loc txt).1
          = t0 ++ [Ev.clickFallbackOption txt, Ev.waitPanelHidden])) :=
  fun env loc txt =>
    ⟨fun h => ant_proceeds_when_spinner_absent env loc txt h,
     ant_fallback_iff env loc txt,
     fun h => ant_success_shape env loc txt h⟩

/-- Witness for C1: in an environment with no loading indicator, a failing
role lookup and a succeeding fallback, the pre-check succeeds and the run
proceeds, the fallback is attempted, and the run ends with a click of the
target option followed by the panel-hidden wait. -/
theorem ant_select_option_contract_witness :
    (∃ rest, (ant_select_option antFallbackOkEnv ADD_BANK_BANK_NAME_DROPDOWN
        "GLOBUS BANK").1 =
      Ev.waitSpinnerHidden :: Ev.clickTrigger ADD_BANK_BANK_NAME_DROPDOWN :: rest) ∧
    Ev.waitFallbackOptionVisible "GLOBUS BANK" ∈
      (ant_select_option antFallbackOkEnv ADD_BANK_BANK_NAME_DROPDOWN "GLOBUS BANK").1 ∧
    ((∃ t0, (ant_select_option antFallbackOkEnv ADD_BANK_BANK_NAME_DROPDOWN
          "GLOBUS BANK").1 = t0 ++ [Ev.clickRoleOption "GLOBUS BANK", Ev.waitPanelHidden]) ∨
     (∃ t0, (ant_select_option antFallbackOkEnv ADD_BANK_BANK_NAME_DROPDOWN
          "GLOBUS BANK").1
        = t0 ++ [Ev.clickFallbackOption "GLOBUS BANK", Ev.waitPanelHidden])) :=
  ⟨(ant_select_option_contract antFallbackOkEnv ADD_BANK_BANK_NAME_DROPDOWN
      "GLOBUS BANK").1 rfl,
   (ant_select_option_contract antFallbackOkEnv ADD_BANK_BANK_NAME_DROPDOWN
      "GLOBUS BANK").2.1.mpr ⟨rfl, rfl, by decide⟩,
   (ant_select_option_contract antFallbackOkEnv ADD_BANK_BANK_NAME_DROPDOWN
      "GLOBUS BANK").2.2 (by decide)⟩

/-- C2 counterexample: when the dropdown panel never becomes visible the
operation propagates the driver raw timeout error — not a
`DropdownOpenError` — and when the fallback lookup also fails the raw
fallback error is propagated, not a `DropdownSelectError` naming the
option text and control locator. -/
theorem ant_dropdown_error_counterexample :
    (ant_select_option antPanelStuckEnv ADD_BANK_BANK_NAME_DROPDOWN "GLOBUS BANK").2
      = Except.error (PyErr.timeoutError "Timeout 10000ms exceeded") ∧
    (ant_select_option antPanelStuckEnv ADD_BANK_BANK_NAME_DROPDOWN "GLOBUS BANK").2
      ≠ Except.error PyErr.dropdownOpenError ∧
    (ant_select_option antFallbackFailEnv ADD_BANK_BANK_NAME_DROPDOWN "GLOBUS BANK").2
      = Except.error (PyErr.timeoutError "Timeout 5000ms exceeded (fallback)") ∧
    (ant_select_option antFallbackFailEnv ADD_BANK_BANK_NAME_DROPDOWN "GLOBUS BANK").2
      ≠ Except.error (PyErr.dropdownSelectError "GLOBUS BANK"
          ADD_BANK_BANK_NAME_DROPDOWN) := by
  decide

/-- C2 (amended): when the panel-visibility wait raises, `ant_select_option`
propagates the error of that step unchanged, and when the primary strategy
failed and the fallback is run, the result of the operation is exactly the
first error of the fallback itself (or success), again propagated unchanged. -/
theorem ant_select_option_error_propagation :
    ∀ (env : AntSelectEnv) (loc txt : String) (e : PyErr),
    (env.triggerClick = none → env.panelVisibleWait = some e →
      (ant_select_option env loc txt).2 = Except.error e) ∧
    (env.triggerClick = none → env.panelVisibleWait = none → antPrimaryFails env →
      (ant_select_option env loc txt).2 =
        (match antFallbackFirstErr env with
          | none => Except.ok ()
          | some e2 => Except.error e2)) :=
  fun env loc txt e =>
    ⟨fun h1 h2 => ant_panel_open_fail env loc txt e h1 h2,
     fun h1 h2 h3 => ant_fallback_result env loc txt h1 h2 h3⟩

/-- Witness for the amended C2: the concrete stuck-panel environment
propagates its timeout error, and the concrete failing-fallback
environment propagates the first error of the fallback. -/
theorem ant_select_option_error_propagation_witness :
    (ant_select_option antPanelStuckEnv ADD_BANK_BANK_NAME_DROPDOWN "GLOBUS BANK").2
      = Except.error (PyErr.timeoutError "Timeout 10000ms exceeded") ∧
    (ant_select_option antFallbackFailEnv ADD_BANK_BANK_NAME_DROPDOWN "GLOBUS BANK").2
      = (match antFallbackFirstErr antFallbackFailEnv with
          | none => Except.ok ()
          | some e2 => Except.error e2) :=
  ⟨(ant_select_option_error_propagation antPanelStuckEnv ADD_BANK_BANK_NAME_DROPDOWN
      "GLOBUS BANK" (PyErr.timeoutError "Timeout 10000ms exceeded")).1 rfl rfl,
   (ant_select_option_error_propagation antFallbackFailEnv ADD_BANK_BANK_NAME_DROPDOWN
      "GLOBUS BANK" PyErr.dropdownOpenError).2 rfl rfl (by decide)⟩

/-- C6: `click_element` waits attached, visible, scrolled-into-view and
enabled in that order and only then clicks; a click is ever attempted only
when all four preconditions succeeded; and when a step fails the operation
takes a screenshot and re-raises exactly the error of the first failing
step. -/
theorem click_element_contract : ∀ (env : ClickEnv) (sel : String),
    (clickFirstErr env = none →
      click_element env sel = (clickOkTrace sel, Except.ok ())) ∧
    (∀ e, clickFirstErr env = some e →
      (click_element env sel).2 = Except.error e ∧
      Ev.screenshot "click_error" ∈ (click_element env sel).1) ∧
    (Ev.clickAction sel ∈ (click_element env sel).1 →
      env.attachedWait = none ∧ env.visibleWait = none ∧
      env.scrollIntoView = none ∧ env.enabledExpect = none) := by
  intro env sel
  refine ⟨fun h => click_element_ok_eq env sel h, ?_, ?_⟩
  · intro e h
    refine ⟨by rw [click_element_snd, h], ?_⟩
    rcases env with ⟨a, v, s, en, c⟩
    cases a <;> cases v <;> cases s <;> cases en <;> cases c <;>
      simp_all [clickFirstErr, click_element, runSteps, withScreenshotOnFailure]
  · rcases env with ⟨a, v, s, en, c⟩
    cases a <;> cases v <;> cases s <;> cases en <;> cases c <;>
      · intro h
        simp_all [click_element, runSteps, withScreenshotOnFailure]

/-- Witness for C6: with all waits succeeding the click happens after the
full wait chain; with a failing visibility wait the operation re-raises
that timeout and records a screenshot. -/
theorem click_element_contract_witness :
    click_element {} LOGIN_PAGE_SUBMIT_BUTTON
      = (clickOkTrace LOGIN_PAGE_SUBMIT_BUTTON, Except.ok ()) ∧
    ((click_element clickVisibleFailEnv LOGIN_PAGE_SUBMIT_BUTTON).2
        = Except.error (PyErr.timeoutError "Timeout 30000ms exceeded") ∧
      Ev.screenshot "click_error" ∈
        (click_element clickVisibleFailEnv LOGIN_PAGE_SUBMIT_BUTTON).1) ∧
    (({} : ClickEnv).attachedWait = none ∧ ({} : ClickEnv).visibleWait = none ∧
      ({} : ClickEnv).scrollIntoView = none ∧ ({} : ClickEnv).enabledExpect = none) :=
  ⟨(click_element_contract {} LOGIN_PAGE_SUBMIT_BUTTON).1 rfl,
   (click_element_contract clickVisibleFailEnv LOGIN_PAGE_SUBMIT_BUTTON).2.1
      (PyErr.timeoutError "Timeout 30000ms exceeded") rfl,
   (click_element_contract {} LOGIN_PAGE_SUBMIT_BUTTON).2.2 (by decide)⟩

/-- C4: when its waits and the raw fill succeed, `fill_input` performs
wait-visible, scroll-into-view and the fill in order and then asserts the
field holds exactly the supplied value; it returns normally iff the field
echoes the value exactly and otherwise raises the assertion error (after a
diagnostic screenshot), in particular when the field truncates the value
to a shorter string. -/
theorem fill_input_postcondition : ∀ (env : FillEnv) (sel v : String),
    env.visibleWait = none → env.scrollIntoView = none → env.fillAction = none →
    fill_input env sel v =
      (if env.fieldValueAfterFill = v
        then (fillOkTrace sel v, Except.ok ())
        else (fillOkTrace sel v ++ [Ev.screenshot "fill_error"],
          Except.error (PyErr.assertionError
            ("Locator expected to have value " ++ v ++ " but had "
              ++ env.fieldValueAfterFill)))) := by
  intro env sel v h1 h2 h3
  rcases env with ⟨vw, s, f, val⟩
  cases vw <;> cases s <;> cases f <;> by_cases hv : val = v <;>
    simp_all [fill_input, runSteps, withScreenshotOnFailure, toHaveValueResult,
      fillOkTrace]

/-- Witness for C4: a field that truncates `UNAFNGLA228` to `UNAF` makes
`fill_input` raise the assertion error instead of returning normally. -/
theorem fill_input_postcondition_witness :
    (fill_input truncatingFillEnv ADD_BANK_BANK_ID "UNAFNGLA228").2
      = Except.error (PyErr.assertionError
          "Locator expected to have value UNAFNGLA228 but had UNAF") := by
  have h := fill_input_postcondition truncatingFillEnv ADD_BANK_BANK_ID
    "UNAFNGLA228" rfl rfl rfl
  rw [h]
  decide

/-- C3 counterexample: with allowed extensions `[.pdf, .csv]` a served
file named `report.exe` is rejected, but with a plain `AssertionError`
from the `assert` statement — not with a `DownloadError` as the claim
states. -/
theorem download_error_counterexample :
    (click_and_verify_download dlExeEnv "a.download-report" "downloads/report.exe"
        [".pdf", ".csv"]).2
      = Except.error (PyErr.assertionError "Unexpected file type: report.exe") ∧
    (click_and_verify_download dlExeEnv "a.download-report" "downloads/report.exe"
        [".pdf", ".csv"]).2
      ≠ Except.error (PyErr.downloadError "report.exe") := by
  decide

/-- C3 (amended): `click_and_verify_download` persists the download to the
given save path and then validates it; when the suggested filename
extension is not among the allowed ones it raises an `AssertionError`
whose message carries the offending filename, and an allowed file is
accepted with the download saved at the requested path. -/
theorem click_and_verify_download_validation :
    ∀ (env : DownloadEnv) (sel sp : String) (exts : List String),
    clickFirstErr env.click = none → downloadPathOk env = true →
    click_and_verify_download env sel sp exts =
      (clickOkTrace sel ++ [Ev.saveAs sp, Ev.checkPathExists,
          Ev.checkExtension env.suggestedFilename],
        if endsWithAny env.suggestedFilename exts then Except.ok ()
        else Except.error (PyErr.assertionError
          ("Unexpected file type: " ++ env.suggestedFilename))) ∧
    Ev.saveAs sp ∈ (click_and_verify_download env sel sp exts).1 := by
  intro env sel sp exts h1 h2
  have hc := click_element_ok_eq env.click sel h1
  have heq : click_and_verify_download env sel sp exts =
      (clickOkTrace sel ++ [Ev.saveAs sp, Ev.checkPathExists,
          Ev.checkExtension env.suggestedFilename],
        if endsWithAny env.suggestedFilename exts then Except.ok ()
        else Except.error (PyErr.assertionError
          ("Unexpected file type: " ++ env.suggestedFilename))) := by
    cases he : endsWithAny env.suggestedFilename exts <;>
      simp [click_and_verify_download, hc, andThen, runSteps, h2, he]
  exact ⟨heq, by rw [heq]; simp⟩

/-- Witness for the amended C3: `report.pdf` is accepted and saved at the
requested path; `report.exe` is rejected with an `AssertionError` naming
the file. -/
theorem click_and_verify_download_validation_witness :
    click_and_verify_download dlPdfEnv "a.download-report" "downloads/report.pdf"
        [".pdf", ".csv"]
      = (clickOkTrace "a.download-report" ++ [Ev.saveAs "downloads/report.pdf",
          Ev.checkPathExists, Ev.checkExtension "report.pdf"], Except.ok ()) ∧
    Ev.saveAs "downloads/report.pdf" ∈
      (click_and_verify_download dlPdfEnv "a.download-report" "downloads/report.pdf"
        [".pdf", ".csv"]).1 ∧
    (click_and_verify_download dlExeEnv "a.download-report" "downloads/report.exe"
        [".pdf", ".csv"]).2
      = Except.error (PyErr.assertionError "Unexpected file type: report.exe") := by
  have h1 := click_and_verify_download_validation dlPdfEnv "a.download-report"
    "downloads/report.pdf" [".pdf", ".csv"] rfl (by decide)
  have h2 := click_and_verify_download_validation dlExeEnv "a.download-report"
    "downloads/report.exe" [".pdf", ".csv"] rfl (by decide)
  refine ⟨?_, h1.2, ?_⟩
  · rw [h1.1]
    decide
  · rw [h2.1]
    decide

/-- C10: `click_and_verify_download` calls `save_as` on the save
path before either validation runs, so whenever validation fails and the
operation raises, the save to that path has already happened: the trace is
the click trace followed by the save event and only then the checks. -/
theorem download_persists_before_validation :
    ∀ (env : DownloadEnv) (sel sp : String) (exts : List String) (e : PyErr),
    clickFirstErr env.click = none →
    (click_and_verify_download env sel sp exts).2 = Except.error e →
    ∃ suffix, (click_and_verify_download env sel sp exts).1
      = clickOkTrace sel ++ Ev.saveAs sp :: suffix := by
  intro env sel sp exts e h1 _h2
  have hc := click_element_ok_eq env.click sel h1
  cases hp : downloadPathOk env with
  | false =>
      exact ⟨[Ev.checkPathExists],
        by simp [click_and_verify_download, hc, andThen, runSteps, hp]⟩
  | true =>
      refine ⟨[Ev.checkPathExists, Ev.checkExtension env.suggestedFilename], ?_⟩
      cases he : endsWithAny env.suggestedFilename exts <;>
        simp [click_and_verify_download, hc, andThen, runSteps, hp, he]

/-- Witness for C10: in the rejected `report.exe` run the trace still
contains the save of the requested path before the failing checks. -/
theorem download_persists_before_validation_witness :
    ∃ suffix, (click_and_verify_download dlExeEnv "a.download-report"
        "downloads/report.exe" [".pdf", ".csv"]).1
      = clickOkTrace "a.download-report" ++ Ev.saveAs "downloads/report.exe" :: suffix :=
  download_persists_before_validation dlExeEnv "a.download-report"
    "downloads/report.exe" [".pdf", ".csv"]
    (PyErr.assertionError "Unexpected file type: report.exe") rfl (by decide)

/-- C5: `create_new_bank_details` reaches the submit click only after the
value of the bank-identifier field passed both the exact-length-10 check and the
equality check against the supplied identifier; consequently, for any
newline-free effective identifier whose length is not 10 — in particular
the default settings value `UNAFNGLA228`, of length 11 — the flow raises
before submission. -/
theorem create_new_bank_details_length_gate :
    ∀ (env : BankFlowEnv) (bn bid sc : Option String),
    (Ev.clickAction ADD_BANK_ADD_BANK_BUTTON ∈ (create_new_bank_details env bn bid sc).1 →
      env.bankIdFill.fieldValueAfterFill = pyOr bid settings.bank_id ∧
      reExactLenMatches (pyOr bid settings.bank_id) 10 = true) ∧
    ((pyOr bid settings.bank_id).data.all (fun c => c != Char.ofNat 10) = true →
      (pyOr bid settings.bank_id).length ≠ 10 →
      (create_new_bank_details env bn bid sc).2 ≠ Except.ok () ∧
      Ev.clickAction ADD_BANK_ADD_BANK_BUTTON ∉ (create_new_bank_details env bn bid sc).1) ∧
    settings.bank_id = "UNAFNGLA228" ∧ ("UNAFNGLA228" : String).length = 11 := by
  intro env bn bid sc
  have hmem : Ev.clickAction ADD_BANK_ADD_BANK_BUTTON
        ∈ (create_new_bank_details env bn bid sc).1 →
      env.bankIdFill.fieldValueAfterFill = pyOr bid settings.bank_id ∧
      reExactLenMatches (pyOr bid settings.bank_id) 10 = true := by
    intro h
    unfold create_new_bank_details at h
    rcases mem_andThen h with h | ⟨hA, h⟩
    · exact absurd h (clickAction_not_mem_ant _ _ _ _)
    rcases mem_andThen h with h | ⟨hB, h⟩
    · exact absurd h (clickAction_not_mem_fill _ _ _)
    rcases mem_andThen h with h | ⟨hC, h⟩
    · exact absurd h (clickAction_not_mem_verifyLen _ _ _ _)
    rcases mem_andThen h with h | ⟨hD, h⟩
    · exact absurd h (clickAction_not_mem_verifyVal _ _ _)
    rcases mem_andThen h with h | ⟨hE, h⟩
    · exact absurd h (clickAction_not_mem_fill _ _ _)
    rcases mem_andThen h with h | ⟨hF, h⟩
    · exact absurd h (clickAction_not_mem_verifyVal _ _ _)
    have hv := fill_input_ok_value hB
    have hr := verifyLen_ok hC
    rw [hv] at hr
    exact ⟨hv, hr⟩
  refine ⟨hmem, ?_, rfl, by decide⟩
  intro hnl hlen
  have hlen2 : (pyOr bid settings.bank_id).data.length ≠ 10 := by
    intro hc
    exact hlen hc
  have hfalse := reExactLenMatches_eq_false hnl hlen2
  constructor
  · intro hok
    unfold create_new_bank_details at hok
    have h1 := (andThen_ok_iff _ _).mp hok
    have h2 := (andThen_ok_iff _ _).mp h1.2
    have h3 := (andThen_ok_iff _ _).mp h2.2
    have hv := fill_input_ok_value h2.1
    have hr := verifyLen_ok h3.1
    rw [hv, hfalse] at hr
    exact absurd hr (by simp)
  · intro hm
    have h2 := (hmem hm).2
    rw [hfalse] at h2
    exact absurd h2 (by simp)

/-- Witness for C5: with a faithful field echo and the default settings
identifier (length 11), the flow raises and the submit button is never
clicked. -/
theorem create_new_bank_details_length_gate_witness :
    (create_new_bank_details bankDefaultEnv none none none).2 ≠ Except.ok () ∧
    Ev.clickAction ADD_BANK_ADD_BANK_BUTTON ∉
      (create_new_bank_details bankDefaultEnv none none none).1 :=
  (create_new_bank_details_length_gate bankDefaultEnv none none none).2.1
    (by decide) (by decide)

/-- C9 counterexample: with the shipped default settings (empty test
credentials), `login_user None None` fills the empty string into both
fields and clicks submit — an empty credential string is submitted through
`login_user`, contrary to the consequence drawn by the claim. -/
theorem login_empty_credentials_counterexample :
    settings.test_username = "" ∧ settings.test_password = "" ∧
    Ev.fillAction LOGIN_PAGE_EMAIL_INPUT "" ∈ (login_user emptyCredLoginEnv none none).1 ∧
    Ev.fillAction LOGIN_PAGE_PASSWORD_INPUT ""
      ∈ (login_user emptyCredLoginEnv none none).1 ∧
    Ev.clickAction LOGIN_PAGE_SUBMIT_BUTTON
      ∈ (login_user emptyCredLoginEnv none none).1 := by
  decide

/-- C9 (amended): any value `login_user` fills into the email (resp.
password) field is exactly the Python-`or` of the argument and the settings
default, and a `None` or empty argument is replaced by the configured
default — which prevents submitting an empty string only when that default
is itself non-empty (the shipped defaults are empty). -/
theorem login_user_default_credentials :
    ∀ (env : LoginEnv) (email password : Option String),
    (∀ v, Ev.fillAction LOGIN_PAGE_EMAIL_INPUT v ∈ (login_user env email password).1 →
        v = pyOr email settings.test_username) ∧
    (∀ v, Ev.fillAction LOGIN_PAGE_PASSWORD_INPUT v ∈ (login_user env email password).1 →
        v = pyOr password settings.test_password) ∧
    ((email = none ∨ email = some "") →
        pyOr email settings.test_username = settings.test_username) ∧
    ((password = none ∨ password = some "") →
        pyOr password settings.test_password = settings.test_password) := by
  intro env email pw
  refine ⟨?_, ?_, ?_, ?_⟩
  · intro v h
    unfold login_user at h
    rcases mem_andThen h with h | ⟨_, h⟩
    · exact (fillAction_mem_fill h).2
    rcases mem_andThen h with h | ⟨_, h⟩
    · exact absurd (fillAction_mem_fill h).1 (by decide)
    rcases mem_andThen h with h | ⟨_, h⟩
    · exact absurd h (fillAction_not_mem_click _ _)
    · simp at h
  · intro v h
    unfold login_user at h
    rcases mem_andThen h with h | ⟨_, h⟩
    · exact absurd (fillAction_mem_fill h).1 (by decide)
    rcases mem_andThen h with h | ⟨_, h⟩
    · exact (fillAction_mem_fill h).2
    rcases mem_andThen h with h | ⟨_, h⟩
    · exact absurd h (fillAction_not_mem_click _ _)
    · simp at h
  · intro hc
    rcases hc with h | h <;> simp [pyOr, h]
  · intro hc
    rcases hc with h | h <;> simp [pyOr, h]

/-- Witness for the amended C9: an explicitly empty email argument is
replaced by the configured default, and the value actually filled is that
default. -/
theorem login_user_default_credentials_witness :
    ("" : String) = pyOr (some "") settings.test_username ∧
    pyOr (some "") settings.test_username = settings.test_username :=
  ⟨(login_user_default_credentials emptyCredLoginEnv (some "") none).1 "" (by decide),
   (login_user_default_credentials emptyCredLoginEnv (some "") none).2.2.1 (Or.inr rfl)⟩

/-- C8: each page-transition method returns a freshly constructed Page
Object of the target class wrapping the same session page as the receiver,
and leaves the receiving Page Object completely unchanged (same session
page, same URL) whether the transition succeeds or fails. -/
theorem page_transition_new_instance :
    ∀ (self : PageObject) (env envP envL envB envA : ClickEnv),
    (click_default_company_link self env).1 = self ∧
    (clickFirstErr env = none →
      (click_default_company_link self env).2.2
        = Except.ok (mkSelfServicePage self.pageId)) ∧
    (click_to_logout self envP envL).1 = self ∧
    (clickFirstErr envP = none → clickFirstErr envL = none →
      (click_to_logout self envP envL).2.2 = Except.ok (mkHomePage self.pageId)) ∧
    (click_to_add_banking_details self envB envA).1 = self ∧
    (clickFirstErr envB = none → clickFirstErr envA = none →
      (click_to_add_banking_details self envB envA).2.2
        = Except.ok (mkAddBankDetailsPage self.pageId)) ∧
    (mkSelfServicePage self.pageId).pageId = self.pageId ∧
    (mkHomePage self.pageId).pageId = self.pageId ∧
    (mkAddBankDetailsPage self.pageId).pageId = self.pageId := by
  intro self env envP envL envB envA
  refine ⟨?_, ?_, ?_, ?_, ?_, ?_, rfl, rfl, rfl⟩
  · unfold click_default_company_link
    rcases h : click_element env LOGIN_PAGE_DEFAULT_LINK with ⟨t, r⟩
    cases r <;> rfl
  · intro h
    unfold click_default_company_link
    rw [click_element_ok_eq env _ h]
  · unfold click_to_logout
    rcases h : andThen (click_element envP SELF_SERVICE_MM_PROFILE)
        (click_element envL SELF_SERVICE_LOGOUT_LINK) with ⟨t, r⟩
    cases r <;> rfl
  · intro h1 h2
    unfold click_to_logout
    rw [click_element_ok_eq envP _ h1, click_element_ok_eq envL _ h2]
    rfl
  · unfold click_to_add_banking_details
    rcases h : andThen ([Ev.waitForLoadState "domcontentloaded"], Except.ok ())
        (andThen (click_element envB SELF_SERVICE_CLICK_BANK_DETAIL)
          (click_element envA SELF_SERVICE_ADD_NEW_BANK_DETAIL_BUTTON)) with ⟨t, r⟩
    cases r <;> rfl
  · intro h1 h2
    unfold click_to_add_banking_details
    rw [click_element_ok_eq envB _ h1, click_element_ok_eq envA _ h2]
    rfl

/-- Witness for C8: with all clicks succeeding, the three transitions from
concrete receivers yield the expected fresh page objects over the same
session page. -/
theorem page_transition_new_instance_witness :
    (click_default_company_link (mkLoginPage 0) {}).2.2
      = Except.ok (mkSelfServicePage 0) ∧
    (click_to_logout (mkSelfServicePage 0) {} {}).2.2 = Except.ok (mkHomePage 0) ∧
    (click_to_add_banking_details (mkSelfServicePage 0) {} {}).2.2
      = Except.ok (mkAddBankDetailsPage 0) :=
  ⟨(page_transition_new_instance (mkLoginPage 0) {} {} {} {} {}).2.1 rfl,
   (page_transition_new_instance (mkSelfServicePage 0) {} {} {} {} {}).2.2.2.1 rfl rfl,
   (page_transition_new_instance (mkSelfServicePage 0) {} {} {} {} {}).2.2.2.2.2.1
      rfl rfl⟩

/-- C7: the `authenticated_page` fixture follows
Anonymous, LoggingIn, Authenticated, LoggedOut in order: a fully
successful run performs navigation, credential fills, submit, the two
post-login marker checks, the default-entity click and the identity-marker
check, yields to the test scope, and then runs the logout flow (profile
click, logout click); its trace drives the protocol state machine through
exactly the four states.  On any setup exception the fixture logs the
error, captures a screenshot and re-raises, and no logout click, profile
click or scope yield ever happened. -/
theorem authenticated_page_lifecycle : ∀ (env : AuthEnv),
    ((authSetup env).2 = Except.ok () → (authTeardown env).2 = Except.ok () →
      authenticated_page env = (authSuccessTrace, Except.ok ()) ∧
      (authSuccessTrace.scanl authStep AuthState.anonymous).dedup
        = [AuthState.anonymous, AuthState.loggingIn, AuthState.authenticated,
            AuthState.loggedOut]) ∧
    (∀ t e, authSetup env = (t, Except.error e) →
      authenticated_page env
          = (t ++ [Ev.logAuthError, Ev.screenshot "auth_error"], Except.error e) ∧
      Ev.clickAction SELF_SERVICE_MM_PROFILE ∉ t ∧
      Ev.clickAction SELF_SERVICE_LOGOUT_LINK ∉ t ∧
      Ev.yieldScope ∉ t) := by
  intro env
  constructor
  · intro hs ht
    have hse := authSetup_ok_eq env hs
    have hte := authTeardown_ok_eq env ht
    constructor
    · unfold authenticated_page
      rw [hse, hte]
      decide
    · decide
  · intro t e hserr
    have heq : authenticated_page env
        = (t ++ [Ev.logAuthError, Ev.screenshot "auth_error"], Except.error e) := by
      unfold authenticated_page
      rw [hserr]
    refine ⟨heq, ?_, ?_, ?_⟩
    · intro hm
      have hm2 : Ev.clickAction SELF_SERVICE_MM_PROFILE ∈ (authSetup env).1 := by
        rw [hserr]
        exact hm
      rcases clickAction_mem_authSetup hm2 with h2 | h2 <;> exact absurd h2 (by decide)
    · intro hm
      have hm2 : Ev.clickAction SELF_SERVICE_LOGOUT_LINK ∈ (authSetup env).1 := by
        rw [hserr]
        exact hm
      rcases clickAction_mem_authSetup hm2 with h2 | h2 <;> exact absurd h2 (by decide)
    · intro hm
      have hm2 : Ev.yieldScope ∈ (authSetup env).1 := by
        rw [hserr]
        exact hm
      exact yieldScope_not_mem_authSetup env hm2

/-- Witness for C7: a fully successful environment yields the complete
lifecycle trace ending in logout, and a navigation-failure environment
re-raises after the screenshot without any logout attempt. -/
theorem authenticated_page_lifecycle_witness :
    (authenticated_page authOkEnv = (authSuccessTrace, Except.ok ()) ∧
      (authSuccessTrace.scanl authStep AuthState.anonymous).dedup
        = [AuthState.anonymous, AuthState.loggingIn, AuthState.authenticated,
            AuthState.loggedOut]) ∧
    (authenticated_page authNavFailEnv
        = ([Ev.navigateGoto settings.base_url, Ev.screenshot "navigation_error"]
            ++ [Ev.logAuthError, Ev.screenshot "auth_error"],
          Except.error (PyErr.timeoutError "net::ERR_NAME_NOT_RESOLVED")) ∧
      Ev.clickAction SELF_SERVICE_MM_PROFILE
        ∉ [Ev.navigateGoto settings.base_url, Ev.screenshot "navigation_error"] ∧
      Ev.clickAction SELF_SERVICE_LOGOUT_LINK
        ∉ [Ev.navigateGoto settings.base_url, Ev.screenshot "navigation_error"] ∧
      Ev.yieldScope
        ∉ [Ev.navigateGoto settings.base_url, Ev.screenshot "navigation_error"]) :=
  ⟨(authenticated_page_lifecycle authOkEnv).1 (by decide) (by decide),
   (authenticated_page_lifecycle authNavFailEnv).2
      [Ev.navigateGoto settings.base_url, Ev.screenshot "navigation_error"]
      (PyErr.timeoutError "net::ERR_NAME_NOT_RESOLVED") (by decide)⟩

end CILeasing

